import Mathlib

/-!
Verification of the ACRAC evaluation platform (acrac-web-code).

The repository ships the React/TypeScript front end (`frontend/eval-app/src`),
deployment material, API documentation, and a design document for the backend
`JudgeService` (`backend/app/service/eval_v1/judge_service.py`) that carries the
core code fragments of that service.  The backend orchestration engine itself
(combination planner, combination runner, task state machine, multi-service
fan-out) is documented in the specification but its Python source is not part
of the file set; those parts are modelled here from the specification's words
and are marked as such in their doc comments.

Numeric results (accuracy ratios) are modelled over `ℚ`; machine latencies are
plain naturals.  Fallible operations return `Except`/`Option`.
-/

namespace Acrac

/-! ## Judge service (from the `judge_service.py` design document)

`JudgeRequest.recommendations` in the source may be `list[str] | list[dict]`;
a dict is looked up at the keys `id`, `name`, `title` (Python `or`, so an
empty-string value is skipped like a missing key), falling back to the dict's
first value, with `""` for an empty dict. -/

/-- A recommendation item as the judge receives it: a plain string or a dict
(modelled as an association list in insertion order). -/
inductive RecItem where
  | rstr (s : String)
  | rdict (fields : List (String × String))
  deriving Repr, DecidableEq

/-- An ASCII whitespace character (what `strip`/`trim` removes). -/
def isSpaceChar (c : Char) : Bool :=
  c = ' ' ∨ c = '\t' ∨ c = '\n' ∨ c = '\r'

/-- Surrounding whitespace removed from a character list. -/
def trimChars (cs : List Char) : List Char :=
  ((cs.dropWhile isSpaceChar).reverse.dropWhile isSpaceChar).reverse

/-- Python `str.strip()` / JS `trim()`: surrounding whitespace removed
(executable model over the string's characters). -/
def pyStrip (s : String) : String :=
  ⟨trimChars s.data⟩

/-- Lower-casing of one character (ASCII case mapping; characters outside
A–Z, the Chinese sample data among them, are case-less and unchanged). -/
def lowerChar (c : Char) : Char :=
  if 'A' ≤ c ∧ c ≤ 'Z' then Char.ofNat (c.toNat + 32) else c

/-- Python `str.lower()` (executable model over the string's characters). -/
def pyLower (s : String) : String :=
  ⟨s.data.map lowerChar⟩

/-- `d.get(k)` on the association-list model of a Python dict. -/
def dictGet (d : List (String × String)) (k : String) : Option String :=
  (d.find? (fun p => p.1 = k)).map (fun p => p.2)

/-- Python truthiness of an optional string: `None` and `""` are falsy. -/
def pyTruthy (o : Option String) : Bool :=
  match o with
  | some s => !(s = "")
  | none => false

/-- Python `a or b` over optional strings with string default. -/
def pyOrElse (a : Option String) (b : String) : String :=
  if pyTruthy a then a.getD "" else b

/-- `next(iter(r.values()), "")`: the first value of the dict, `""` if empty. -/
def firstDictValue (d : List (String × String)) : String :=
  match d with
  | [] => ""
  | p :: _ => p.2

/-- One step of `JudgeService._normalize_recs`: extract a string from the item
(`id` or `name` or `title` or first value for dicts) and strip it. -/
def normalizeRecItem (r : RecItem) : String :=
  match r with
  | .rstr s => pyStrip s
  | .rdict d =>
      pyStrip (pyOrElse (dictGet d "id")
        (pyOrElse (dictGet d "name")
          (pyOrElse (dictGet d "title") (firstDictValue d))))

/-- `JudgeService._normalize_recs`. -/
def normalize_recs (recs : List RecItem) : List String :=
  recs.map normalizeRecItem

/-- `JudgeRequest` (judge schemas): recommendations, the standard list and the
`model_judge` policy switch. -/
structure JudgeRequest where
  recommendations : List RecItem
  standard_recommendations : List String
  model_judge : Bool
  deriving Repr, DecidableEq

/-- `JudgeResult`: the two binary verdicts, each the string "0" or "1". -/
structure JudgeResult where
  top_1 : String
  top_3 : String
  deriving Repr, DecidableEq

/-- `JudgeResponse` wraps a `JudgeResult`. -/
structure JudgeResponse where
  judge_result : JudgeResult
  deriving Repr, DecidableEq

/-- An external judge model invocation: given the normalized recommendation
strings and the standard list it either answers with a `JudgeResult` or fails
(network / model error).  The chain `prompt | llm.with_structured_output` of
the source is opaque network I/O, so it is a parameter of the embedding. -/
def JudgeOracle : Type :=
  List String → List String → Except String JudgeResult

/-- `JudgeService.judge_by_llm`: normalizes the recommendations, then always
invokes the external chain on them and wraps its verdict; no empty-input
short-circuit appears in the code. -/
def judge_by_llm (oracle : JudgeOracle) (req : JudgeRequest) :
    Except String JudgeResponse :=
  let recs := normalize_recs req.recommendations
  let stds := req.standard_recommendations
  (oracle recs stds).map (fun r => ⟨r⟩)

/-- Case/whitespace normalization used by the judging rules. -/
def normText (s : String) : String :=
  pyLower (pyStrip s)

/-- Modelled from the spec: `JudgeService.judge_by_str`, the exact-match
string policy, is kept as "original logic" by the design document but its body
is not among the repository files.  Per the spec (§4.3, §6): case and
surrounding-whitespace normalization on both sides, `top_1` is whether the
first recommendation hits the standard list, `top_3` whether any of the first
three does, and empty recommendations or an empty standard list give "0"
verdicts. -/
def judge_by_str (req : JudgeRequest) : JudgeResponse :=
  let recs := normalize_recs req.recommendations
  let stds := req.standard_recommendations.map normText
  if recs = [] ∨ req.standard_recommendations = [] then
    ⟨⟨"0", "0"⟩⟩
  else
    let top1 :=
      match recs with
      | [] => false
      | r :: _ => stds.contains (normText r)
    let top3 := (recs.take 3).any (fun r => stds.contains (normText r))
    ⟨⟨if top1 then "1" else "0", if top3 then "1" else "0"⟩⟩

/-- `JudgeService.judge_recommendations`: route to the model-assisted judge
when `model_judge` is set, otherwise to the exact string policy.  An error of
the external judge propagates; the code has no fallback branch. -/
def judge_recommendations (oracle : JudgeOracle) (req : JudgeRequest) :
    Except String JudgeResponse :=
  if req.model_judge then
    judge_by_llm oracle req
  else
    .ok (judge_by_str req)

/-! ## Per-scenario exact-match hit judge (HitJudge, spec §4.3) -/

/-- A hit verdict over per-scenario recommendation lists. -/
structure HitVerdict where
  hit : Bool
  per_scenario_hits : List Nat
  deriving Repr, DecidableEq

/-- Whether one scenario's recommendation list contains the standard answer
after normalization. -/
def scenarioContains (answer : String) (recs : List String) : Bool :=
  recs.any (fun r => normText r = normText answer)

/-- Modelled from the spec: the exact-match `HitJudge` policy over
per-scenario recommendation lists (§4.3) is part of the missing backend
evaluation engine.  Per the spec: both sides are normalized for case and
surrounding whitespace, `per_scenario_hits[i]` is 1 iff the answer appears in
scenario i's list, the overall `hit` is a pure function of those flags (any
flag set), and an empty recommendation structure or empty standard answer is
no hit by definition. -/
def exactMatchJudge (perScenario : List (List String)) (answer : String) :
    HitVerdict :=
  if perScenario = [] ∨ answer = "" then
    ⟨false, perScenario.map (fun _ => 0)⟩
  else
    let hits := perScenario.map (fun recs => if scenarioContains answer recs then 1 else 0)
    ⟨hits.any (fun n => n = 1), hits⟩

/-! ## Result data model (from `frontend/eval-app/src/types/evaluation.ts`)

`accuracy` fields, numbers in the JSON payloads, are modelled over `ℚ`. -/

/-- `EvaluationDetail` (evaluation.ts): one judged sample. -/
structure EvaluationDetail where
  clinical_scenario : String
  standard_answer : String
  recommendations : List (List String)
  per_scenario_hits : List Nat
  hit : Bool
  processing_time_ms : Nat
  deriving Repr, DecidableEq

/-- `CombinationResult` (evaluation.ts). -/
structure CombinationResult where
  accuracy : ℚ
  total_samples : Nat
  hit_samples : Nat
  details : List EvaluationDetail
  deriving Repr, DecidableEq

/-- `VariantResult` (evaluation.ts): a labelled combination result. -/
structure VariantResult where
  label : String
  accuracy : ℚ
  total_samples : Nat
  hit_samples : Nat
  details : List EvaluationDetail
  deriving Repr, DecidableEq

/-- `SingleEvaluationData` (evaluation.ts): one service's evaluation payload. -/
structure SingleEvaluationData where
  overall_accuracy : ℚ
  combination_a : CombinationResult
  combination_b : CombinationResult
  variants : Option (List VariantResult)
  average_processing_time_ms : ℚ
  total_samples : Nat
  deriving Repr, DecidableEq

/-- `AllEvaluationSummary` (evaluation.ts). -/
structure AllEvaluationSummary where
  total_endpoints_tested : Nat
  successful_endpoints : Nat
  failed_endpoints : Nat
  average_overall_accuracy : ℚ
  average_processing_time_ms : ℚ
  total_samples : Nat
  deriving Repr, DecidableEq

/-- `EndpointEvalResult` (evaluation.ts): per-service status with optional
result or error. -/
structure EndpointEvalResult where
  status : String
  result : Option SingleEvaluationData
  error : Option String
  deriving Repr, DecidableEq

/-- `AllEvaluationData` (evaluation.ts): the aggregate payload, the keyed
`endpoint_results` object modelled as an association list. -/
structure AllEvaluationData where
  summary : AllEvaluationSummary
  endpoint_results : List (String × EndpointEvalResult)
  csv_file_path : Option String
  deriving Repr, DecidableEq

/-! ## Sample set and combination runner (spec §3, §4.4) -/

/-- `Sample` (spec §3): one labelled evaluation row. -/
structure Sample where
  clinical_scenario : String
  standard_answer : String
  deriving Repr, DecidableEq

/-- What the adapter+retry pipeline yields for one sample: a parsed
per-scenario recommendation structure with its latency, or `dropped` after an
unrecoverable adapter error exhausted the retries. -/
inductive AdapterOutcome where
  | success (recs : List (List String)) (timeMs : Nat)
  | dropped
  deriving Repr, DecidableEq

/-- Whether the outcome completed evaluation. -/
def AdapterOutcome.isSuccess : AdapterOutcome → Bool
  | .success _ _ => true
  | .dropped => false

/-- A combination run's output: the `CombinationResult` plus the separate
failure counter for dropped samples. -/
structure CombinationRun where
  result : CombinationResult
  failed_samples : Nat
  deriving Repr, DecidableEq

/-- Modelled from the spec: the per-sample loop of `CombinationRunner.run`
(§4.4), whose backend source is not among the repository files.  Each sample
is sent through the adapter; a dropped sample only bumps the failure counter,
a successful call is judged and appended as an `EvaluationDetail` in input
order. -/
def runSamples (adapter : Sample → AdapterOutcome)
    (judge : List (List String) → String → HitVerdict) :
    List Sample → List EvaluationDetail × Nat
  | [] => ([], 0)
  | s :: rest =>
    let tail := runSamples adapter judge rest
    match adapter s with
    | .dropped => (tail.1, tail.2 + 1)
    | .success recs t =>
        let v := judge recs s.standard_answer
        (⟨s.clinical_scenario, s.standard_answer, recs,
          v.per_scenario_hits, v.hit, t⟩ :: tail.1, tail.2)

/-- Modelled from the spec: `CombinationRunner.run` aggregation (§4.4), absent
from the repository files.  `total_samples` is the number of completed
details, `hit_samples` the number of hits among them, `accuracy` their exact
ratio (0 for an empty run), and dropped samples are tallied in
`failed_samples` only. -/
def runCombination (samples : List Sample) (adapter : Sample → AdapterOutcome)
    (judge : List (List String) → String → HitVerdict) : CombinationRun :=
  let outcome := runSamples adapter judge samples
  let details := outcome.1
  let total := details.length
  let hits := (details.filter (fun d => d.hit)).length
  { result :=
      { accuracy := if total = 0 then 0 else (hits : ℚ) / (total : ℚ)
        total_samples := total
        hit_samples := hits
        details := details }
    failed_samples := outcome.2 }

/-! ## Combination planner (spec §4.1) -/

/-- `Combination` (spec §3): the two counts and a reporting label. -/
structure Combination where
  top_scenarios : Nat
  top_recommendations_per_scenario : Nat
  label : String
  deriving Repr, DecidableEq

/-- The equality key of a combination: the two integers. -/
def combinationPair (c : Combination) : Nat × Nat :=
  (c.top_scenarios, c.top_recommendations_per_scenario)

/-- Modelled from the spec: the default combination set of
`CombinationPlanner.plan` (§4.1), absent from the repository files.  The
historical baseline pair comes first (`combination_a` = 1 scenario / 1
recommendation, `combination_b` = 3/3, as the front end presents them), then
the remaining defaults. -/
def defaultCombinations : List Combination :=
  [⟨1, 1, "combination_a"⟩, ⟨3, 3, "combination_b"⟩,
   ⟨1, 3, "combination_c"⟩, ⟨3, 1, "combination_d"⟩]

/-- Modelled from the spec: `CombinationPlanner.plan` (§4.1), absent from the
repository files.  With no user combination the default set is returned; a
user combination is appended as a "variant" unless its integer pair already
occurs among the defaults (de-duplication by pair equality). -/
def plan (userCombination : Option (Nat × Nat)) : List Combination :=
  match userCombination with
  | none => defaultCombinations
  | some u =>
      if u ∈ defaultCombinations.map combinationPair then
        defaultCombinations
      else
        defaultCombinations ++ [⟨u.1, u.2, "variant"⟩]

/-! ## Task state machine (spec §4.6) -/

/-- Task lifecycle states (spec §3). -/
inductive TaskStatus where
  | pending
  | started
  | progress
  | success
  | failure
  deriving Repr, DecidableEq

/-- Modelled from the spec: the Orchestrator's mutable task record (§4.6),
absent from the repository files, reduced to the fields progress depends on:
the number of target services and how many finished. -/
structure TaskState where
  total_services : Nat
  completed_services : Nat
  status : TaskStatus
  deriving Repr, DecidableEq

/-- Modelled from the spec: `progress_percentage`, recomputed as
`completed_services / total_services * 100` (§4.6). -/
def progressPercentage (s : TaskState) : Nat :=
  s.completed_services * 100 / s.total_services

/-- Modelled from the spec: the Orchestrator's task transitions (§4.6,
Pending → Started → Progress… → Success/Failure); dispatch failure before any
service starts goes straight to Failure. -/
inductive TaskStep : TaskState → TaskState → Prop
  | start (t : TaskState) :
      t.status = .pending →
      TaskStep t ⟨t.total_services, t.completed_services, .started⟩
  | serviceDone (t : TaskState) :
      t.status = .started ∨ t.status = .progress →
      t.completed_services < t.total_services →
      TaskStep t ⟨t.total_services, t.completed_services + 1, .progress⟩
  | finishSuccess (t : TaskState) :
      t.status = .started ∨ t.status = .progress →
      t.completed_services = t.total_services →
      TaskStep t ⟨t.total_services, t.completed_services, .success⟩
  | finishFailure (t : TaskState) :
      t.status = .pending ∨ t.status = .started →
      TaskStep t ⟨t.total_services, t.completed_services, .failure⟩

/-! ## Multi-service fan-out (spec §4.6) -/

/-- Modelled from the spec: the Orchestrator's guard around one service's
`ServiceEvaluator` (§4.6): a thrown exception is caught and converted into a
failed per-service result; a normal result is reported as success.  The
per-service payloads take the `EndpointEvalResult` shape of `evaluation.ts`. -/
def runServiceGuarded (outcome : Except String SingleEvaluationData) :
    EndpointEvalResult :=
  match outcome with
  | .ok r => ⟨"success", some r, none⟩
  | .error e => ⟨"failure", none, some e⟩

/-- Modelled from the spec: the fan-out over all target services (§4.6),
absent from the repository files; each service's evaluator outcome is guarded
independently and every service appears in the aggregate. -/
def runAllServices
    (evals : List (String × Except String SingleEvaluationData)) :
    List (String × EndpointEvalResult) :=
  evals.map (fun p => (p.1, runServiceGuarded p.2))

/-! ## API wrappers (from `frontend/eval-app/src/api/evaluation.ts`)

Each wrapper fetches, throws on a non-ok HTTP status, parses the JSON body,
throws when the body has no truthy `Data` field, and otherwise returns the
body.  The fetched outcome (ok flag, status code, parsed body) is the input of
the embedding; a thrown `Error` is the `Except.error` branch. -/

/-- A parsed response body: the `Data` payload when present, plus the optional
`Message` used in the thrown error. -/
structure JsonBody (α : Type) where
  Data : Option α
  Message : Option String
  deriving Repr, DecidableEq

/-- What `fetch` produced: `response.ok`, `response.status` and the parsed
JSON body. -/
structure FetchResponse (α : Type) where
  ok : Bool
  status : Nat
  body : JsonBody α
  deriving Repr, DecidableEq

/-- JavaScript `json?.Message || default`: the message unless it is absent or
empty. -/
def jsMessageOr (m : Option String) (deflt : String) : String :=
  match m with
  | some s => if s = "" then deflt else s
  | none => deflt

/-- The shared throw/return logic of the wrappers in `api/evaluation.ts`:
`if (!response.ok) throw`; `if (!json?.Data) throw json?.Message || …`;
`return json`. -/
def handleApiResponse {α : Type} (resp : FetchResponse α) :
    Except String (JsonBody α) :=
  if resp.ok = false then
    .error ("HTTP error! status: " ++ toString resp.status)
  else
    match resp.body.Data with
    | none => .error (jsMessageOr resp.body.Message "响应数据格式错误")
    | some _ => .ok resp.body

/-- The `Data` payload of the async submission endpoint:
`{ task_id, status }` (api/evaluation.ts, async variant). -/
structure TaskSubmitData where
  task_id : String
  status : String
  deriving Repr, DecidableEq

/-- `evaluateSingleEndpoint` (api/evaluation.ts) on a fetched response. -/
def evaluateSingleEndpoint (resp : FetchResponse SingleEvaluationData) :
    Except String (JsonBody SingleEvaluationData) :=
  handleApiResponse resp

/-- `evaluateAllEndpoints` (api/evaluation.ts, async variant) on a fetched
response. -/
def evaluateAllEndpoints (resp : FetchResponse TaskSubmitData) :
    Except String (JsonBody TaskSubmitData) :=
  handleApiResponse resp

/-- `getTaskStatus` (api/evaluation.ts) on a fetched response. -/
def getTaskStatus (resp : FetchResponse AllEvaluationData) :
    Except String (JsonBody AllEvaluationData) :=
  handleApiResponse resp

/-! ## Display/parameter helpers (from `frontend/eval-app/src/utils/format.ts`) -/

/-- The four core parameter names of `shouldShowParam`, always shown. -/
def coreParams : List String :=
  ["topScenarios", "topRecommendationsPerScenario",
   "similarityThreshold", "minAppropriatenessRating"]

/-- The `recommend`/`recommend-simple` parameter list of the no-file branch. -/
def recommendParamsNoFile : List String :=
  ["standardQuery", "patientInfo", "clinicalContext", "goldAnswer",
   "enableReranking", "needLLMRecommendations", "applyRuleFilter"]

/-- The `intelligent-recommendation` parameter list of the no-file branch. -/
def intelligentParamsNoFile : List String :=
  ["standardQuery", "goldAnswer", "showReasoning", "includeRawData",
   "debugMode", "computeRagas", "groundTruth"]

/-- The `recommend_item_with_reason` parameter list of the no-file branch. -/
def itemParamsNoFile : List String :=
  ["standardQuery", "patientInfo", "clinicalContext", "goldAnswer",
   "sessionId", "patientId", "doctorId"]

/-- The `recommend`/`recommend-simple` parameter list of the file branch. -/
def recommendParamsFile : List String :=
  ["enableReranking", "needLLMRecommendations", "applyRuleFilter"]

/-- The `intelligent-recommendation` parameter list of the file branch. -/
def intelligentParamsFile : List String :=
  ["showReasoning", "includeRawData", "debugMode", "computeRagas",
   "groundTruth"]

/-- The `recommend_item_with_reason` parameter list of the file branch. -/
def itemParamsFile : List String :=
  ["sessionId", "patientId", "doctorId"]

/-- `shouldShowParam` (format.ts): core parameters always show; otherwise the
endpoint's list for the current file mode decides; unmatched endpoints fall
through to `false`. -/
def shouldShowParam (paramName endpoint : String) (hasFile : Bool) : Bool :=
  if paramName ∈ coreParams then
    true
  else if hasFile = false then
    if endpoint = "recommend" ∨ endpoint = "recommend-simple" then
      paramName ∈ recommendParamsNoFile
    else if endpoint = "intelligent-recommendation" then
      paramName ∈ intelligentParamsNoFile
    else if endpoint = "recommend_item_with_reason" then
      paramName ∈ itemParamsNoFile
    else
      false
  else
    if endpoint = "recommend" ∨ endpoint = "recommend-simple" then
      paramName ∈ recommendParamsFile
    else if endpoint = "intelligent-recommendation" then
      paramName ∈ intelligentParamsFile
    else if endpoint = "recommend_item_with_reason" then
      paramName ∈ itemParamsFile
    else
      false

/-- The parameter list `shouldShowParam` consults for an endpoint and file
mode (empty for endpoints outside the three groups). -/
def endpointParams (endpoint : String) (hasFile : Bool) : List String :=
  if hasFile = false then
    if endpoint = "recommend" ∨ endpoint = "recommend-simple" then
      recommendParamsNoFile
    else if endpoint = "intelligent-recommendation" then
      intelligentParamsNoFile
    else if endpoint = "recommend_item_with_reason" then
      itemParamsNoFile
    else
      []
  else
    if endpoint = "recommend" ∨ endpoint = "recommend-simple" then
      recommendParamsFile
    else if endpoint = "intelligent-recommendation" then
      intelligentParamsFile
    else if endpoint = "recommend_item_with_reason" then
      itemParamsFile
    else
      []

/-! ## `formatRecommendations` (format.ts)

The argument has TypeScript type `any`; the dynamic values the function
branches on are strings and (nested) arrays, modelled by `JVal`.  JavaScript
`String(array)` renders the elements comma-joined; `group.join` on a
non-array element throws, modelled by `none`. -/

/-- A dynamic value: a string or an array. -/
inductive JVal where
  | jstr (s : String)
  | jarr (xs : List JVal)
  deriving Repr

mutual

/-- JavaScript `String(v)`: a string is itself, an array joins its elements'
string forms with ",". -/
def jsString : JVal → String
  | .jstr s => s
  | .jarr xs => String.intercalate "," (jsStringList xs)

/-- The elements of an array rendered by `String`. -/
def jsStringList : List JVal → List String
  | [] => []
  | x :: xs => jsString x :: jsStringList xs

end

/-- JavaScript `arr.join(sep)` over modelled values. -/
def jsJoin (xs : List JVal) (sep : String) : String :=
  String.intercalate sep (jsStringList xs)

/-- One step of the multi-scenario branch: `group.join("，")` succeeds only on
an array. -/
def joinGroup : JVal → Option String
  | .jarr ys => some (jsJoin ys "，")
  | .jstr _ => none

/-- `formatRecommendations` (format.ts): "-" for an empty array; when the
first element is an array, every group joined by "，" and the groups by " | "
(`none` models the TypeError thrown when a later element is no array);
otherwise the flat join by "，"; a non-array renders as `String(input)`. -/
def formatRecommendations : JVal → Option String
  | .jarr [] => some "-"
  | .jarr (x :: xs) =>
    match x with
    | .jarr _ =>
        ((x :: xs).mapM joinGroup).map
          (fun groups => String.intercalate " | " groups)
    | .jstr _ => some (jsJoin (x :: xs) "，")
  | .jstr s => some s

/-! ## Helper lemmas -/

/-- `jsStringList` is the elementwise `String` rendering. -/
lemma jsStringList_eq_map (xs : List JVal) :
    jsStringList xs = xs.map jsString := by
  induction xs with
  | nil => rfl
  | cons x xs ih => simp [jsStringList, ih]

/-- `joinGroup` succeeds on every group of an array-of-arrays and yields the
"，"-joined group strings. -/
lemma mapM_joinGroup_arrays (gs : List (List JVal)) :
    (gs.map JVal.jarr).mapM joinGroup
      = some (gs.map (fun ys => String.intercalate "，" (ys.map jsString))) := by
  induction gs with
  | nil => rfl
  | cons g gs ih =>
      rw [List.map_cons, List.mapM_cons, ih]
      simp [joinGroup, jsJoin, jsStringList_eq_map]

/-- C10: `formatRecommendations` returns "-" for an empty array, the groups
joined by "，" inside and " | " between for an array whose first element is an
array, the flat "，" join for a non-empty array whose first element is not an
array, and `String(input)` for a non-array input. -/
theorem formatRecommendations_cases :
    formatRecommendations (.jarr []) = some "-"
    ∧ (∀ g gs, formatRecommendations (.jarr ((g :: gs).map JVal.jarr))
        = some (String.intercalate " | "
            ((g :: gs).map (fun ys => String.intercalate "，" (ys.map jsString)))))
    ∧ (∀ s ss, formatRecommendations (.jarr (JVal.jstr s :: ss))
        = some (String.intercalate "，" (s :: ss.map jsString)))
    ∧ (∀ s, formatRecommendations (.jstr s) = some s) := by
  refine ⟨rfl, ?_, ?_, fun s => rfl⟩
  · intro g gs
    have h := mapM_joinGroup_arrays (g :: gs)
    simp only [List.map_cons] at h ⊢
    simp only [formatRecommendations]
    rw [h]
    rfl
  · intro s ss
    simp [formatRecommendations, jsJoin, jsStringList_eq_map, jsString]

/-- `shouldShowParam` shows a parameter exactly when it is core or on the
endpoint's list for the current file mode. -/
lemma shouldShowParam_eq_mem (p e : String) (f : Bool) :
    shouldShowParam p e f
      = (decide (p ∈ coreParams) || decide (p ∈ endpointParams e f)) := by
  by_cases hc : p ∈ coreParams
  · simp [shouldShowParam, hc]
  · unfold shouldShowParam endpointParams
    cases f <;> simp only [hc, if_false, Bool.false_or, decide_eq_true_eq] <;>
      split_ifs <;> simp [hc]

/-- C9: for every endpoint string and file mode, the four core parameter
names are always shown, and a parameter that is neither core nor on the list
associated with the endpoint and file mode is hidden. -/
theorem shouldShowParam_core_and_hidden (endpoint : String) (hasFile : Bool) :
    (shouldShowParam "topScenarios" endpoint hasFile = true
      ∧ shouldShowParam "topRecommendationsPerScenario" endpoint hasFile = true
      ∧ shouldShowParam "similarityThreshold" endpoint hasFile = true
      ∧ shouldShowParam "minAppropriatenessRating" endpoint hasFile = true)
    ∧ (∀ p, p ∉ coreParams → p ∉ endpointParams endpoint hasFile →
        shouldShowParam p endpoint hasFile = false) := by
  constructor
  · refine ⟨?_, ?_, ?_, ?_⟩ <;> simp [shouldShowParam, coreParams]
  · intro p hc he
    simp [shouldShowParam_eq_mem, hc, he]

/-- C9 witness: at `endpoint = "recommend"` with no file, the core parameter
`topScenarios` is shown and the foreign parameter `sessionId` is hidden. -/
theorem shouldShowParam_core_and_hidden_witness :
    shouldShowParam "topScenarios" "recommend" false = true
    ∧ shouldShowParam "sessionId" "recommend" false = false :=
  ⟨(shouldShowParam_core_and_hidden "recommend" false).1.1,
   (shouldShowParam_core_and_hidden "recommend" false).2 "sessionId"
     (by decide) (by decide)⟩

/-- `handleApiResponse` errors exactly on a non-ok status or a missing `Data`
field. -/
lemma handleApiResponse_error_iff {α : Type} (r : FetchResponse α) :
    (∃ e, handleApiResponse r = .error e) ↔ (r.ok = false ∨ r.body.Data = none) := by
  unfold handleApiResponse
  cases hok : r.ok with
  | false => simp
  | true =>
      cases hD : r.body.Data with
      | none => simp [hD]
      | some d => simp [hD]

/-- `handleApiResponse` returns the body unchanged when ok with data. -/
lemma handleApiResponse_ok {α : Type} (r : FetchResponse α)
    (hok : r.ok = true) (hD : r.body.Data.isSome = true) :
    handleApiResponse r = .ok r.body := by
  unfold handleApiResponse
  rcases Option.isSome_iff_exists.mp hD with ⟨d, hd⟩
  simp [hok, hd]

/-- C8: each of the three API wrappers throws exactly when the response is
not ok or the parsed body lacks a `Data` payload, and otherwise returns the
parsed body unchanged — so every returned value has `Data` set. -/
theorem apiWrappers_throw_iff
    (r1 : FetchResponse SingleEvaluationData)
    (r2 : FetchResponse TaskSubmitData)
    (r3 : FetchResponse AllEvaluationData) :
    ((∃ e, evaluateSingleEndpoint r1 = .error e)
        ↔ (r1.ok = false ∨ r1.body.Data = none))
    ∧ (r1.ok = true → r1.body.Data.isSome = true →
        evaluateSingleEndpoint r1 = .ok r1.body)
    ∧ ((∃ e, evaluateAllEndpoints r2 = .error e)
        ↔ (r2.ok = false ∨ r2.body.Data = none))
    ∧ (r2.ok = true → r2.body.Data.isSome = true →
        evaluateAllEndpoints r2 = .ok r2.body)
    ∧ ((∃ e, getTaskStatus r3 = .error e)
        ↔ (r3.ok = false ∨ r3.body.Data = none))
    ∧ (r3.ok = true → r3.body.Data.isSome = true →
        getTaskStatus r3 = .ok r3.body) :=
  ⟨handleApiResponse_error_iff r1, handleApiResponse_ok r1,
   handleApiResponse_error_iff r2, handleApiResponse_ok r2,
   handleApiResponse_error_iff r3, handleApiResponse_ok r3⟩

/-- C8 witness: an ok response with data is returned unchanged; a non-ok
response throws. -/
theorem apiWrappers_throw_iff_witness :
    evaluateAllEndpoints ⟨true, 200, ⟨some ⟨"task-1", "pending"⟩, none⟩⟩
        = .ok ⟨some ⟨"task-1", "pending"⟩, none⟩
    ∧ (∃ e, getTaskStatus
        (⟨false, 500, ⟨none, some "boom"⟩⟩ : FetchResponse AllEvaluationData)
          = .error e) :=
  ⟨(apiWrappers_throw_iff ⟨true, 200, ⟨none, none⟩⟩
      ⟨true, 200, ⟨some ⟨"task-1", "pending"⟩, none⟩⟩
      ⟨true, 200, ⟨none, none⟩⟩).2.2.2.1 rfl rfl,
   (apiWrappers_throw_iff ⟨true, 200, ⟨none, none⟩⟩
      ⟨true, 200, ⟨some ⟨"task-1", "pending"⟩, none⟩⟩
      ⟨false, 500, ⟨none, some "boom"⟩⟩).2.2.2.2.1.mpr (Or.inl rfl)⟩

/-- Completed details plus dropped samples account for every input sample. -/
lemma runSamples_length_add (adapter : Sample → AdapterOutcome)
    (judge : List (List String) → String → HitVerdict) (samples : List Sample) :
    (runSamples adapter judge samples).1.length
      + (runSamples adapter judge samples).2 = samples.length := by
  induction samples with
  | nil => rfl
  | cons s rest ih =>
      unfold runSamples
      cases h : adapter s with
      | success recs t => simpa using by omega
      | dropped => simpa using by omega

/-- The details are exactly the samples whose adapter call completed. -/
lemma runSamples_length_filter (adapter : Sample → AdapterOutcome)
    (judge : List (List String) → String → HitVerdict) (samples : List Sample) :
    (runSamples adapter judge samples).1.length
      = (samples.filter (fun s => (adapter s).isSuccess)).length := by
  induction samples with
  | nil => rfl
  | cons s rest ih =>
      unfold runSamples
      cases h : adapter s with
      | success recs t => simp [List.filter_cons, h, AdapterOutcome.isSuccess, ih]
      | dropped => simp [List.filter_cons, h, AdapterOutcome.isSuccess, ih]

/-- C1: in every combination run, `accuracy` equals `hit_samples /
total_samples` exactly and lies in `[0, 1]`; `total_samples` counts exactly
the samples whose adapter call completed; samples dropped for unrecoverable
adapter errors go only to the separate failure counter, which together with
`total_samples` accounts for the whole input. -/
theorem runCombination_accuracy_exact (samples : List Sample)
    (adapter : Sample → AdapterOutcome)
    (judge : List (List String) → String → HitVerdict) :
    (runCombination samples adapter judge).result.accuracy
        = ((runCombination samples adapter judge).result.hit_samples : ℚ)
          / ((runCombination samples adapter judge).result.total_samples : ℚ)
    ∧ 0 ≤ (runCombination samples adapter judge).result.accuracy
    ∧ (runCombination samples adapter judge).result.accuracy ≤ 1
    ∧ (runCombination samples adapter judge).result.hit_samples
        ≤ (runCombination samples adapter judge).result.total_samples
    ∧ (runCombination samples adapter judge).result.total_samples
        = (samples.filter (fun s => (adapter s).isSuccess)).length
    ∧ (runCombination samples adapter judge).result.total_samples
        + (runCombination samples adapter judge).failed_samples
        = samples.length := by
  set details := (runSamples adapter judge samples).1 with hdetails
  have hhits : (runCombination samples adapter judge).result.hit_samples
      = (details.filter (fun d => d.hit)).length := rfl
  have htotal : (runCombination samples adapter judge).result.total_samples
      = details.length := rfl
  have hle : (details.filter (fun d => d.hit)).length ≤ details.length :=
    List.length_filter_le _ _
  have hacc : (runCombination samples adapter judge).result.accuracy
      = if details.length = 0 then 0
        else ((details.filter (fun d => d.hit)).length : ℚ) / (details.length : ℚ) := rfl
  refine ⟨?_, ?_, ?_, ?_, ?_, ?_⟩
  · rw [hacc, hhits, htotal]
    by_cases h0 : details.length = 0
    · have : (details.filter (fun d => d.hit)).length = 0 := by omega
      simp [h0, this]
    · simp [h0]
  · rw [hacc]
    by_cases h0 : details.length = 0
    · simp [h0]
    · simp only [h0, if_false]
      positivity
  · rw [hacc]
    by_cases h0 : details.length = 0
    · simp [h0]
    · simp only [h0, if_false]
      rw [div_le_one (by positivity)]
      exact_mod_cast hle
  · rw [hhits, htotal]; exact hle
  · rw [htotal, hdetails]; exact runSamples_length_filter adapter judge samples
  · rw [htotal]
    exact runSamples_length_add adapter judge samples

/-- A 0/1 flag list has a flag set exactly where its condition holds. -/
lemma any_hitFlags (ps : List (List String)) (c : List String → Bool) :
    ((ps.map (fun recs => if c recs then (1 : ℕ) else 0)).any fun n => n = 1)
      = ps.any c := by
  induction ps with
  | nil => rfl
  | cons r rest ih => by_cases hc : c r <;> simp [hc, ih]

/-- C2: under the exact-match policy, for a non-empty standard answer, `hit`
is true iff the normalized answer appears in some scenario's recommendation
list, `per_scenario_hits` marks exactly the scenarios containing it, and in a
`(1,1)` run with a single recommendation `hit` is exactly the normalized
equality with the standard answer. -/
theorem exactMatchJudge_spec (perScenario : List (List String))
    (answer : String) (h : answer ≠ "") :
    (exactMatchJudge perScenario answer).hit
        = perScenario.any (fun recs => scenarioContains answer recs)
    ∧ (exactMatchJudge perScenario answer).per_scenario_hits
        = perScenario.map (fun recs => if scenarioContains answer recs then 1 else 0)
    ∧ (∀ r : String,
        (exactMatchJudge [[r]] answer).hit = true ↔ normText r = normText answer) := by
  have hguard : ∀ ps : List (List String), (ps = [] ∨ answer = "") ↔ ps = [] := by
    intro ps
    constructor
    · rintro (hp | ha)
      · exact hp
      · exact absurd ha h
    · exact Or.inl
  have hmain : ∀ ps : List (List String),
      (exactMatchJudge ps answer).hit = ps.any (fun recs => scenarioContains answer recs)
      ∧ (exactMatchJudge ps answer).per_scenario_hits
          = ps.map (fun recs => if scenarioContains answer recs then 1 else 0) := by
    intro ps
    unfold exactMatchJudge
    by_cases hps : ps = []
    · subst hps
      simp
    · rw [if_neg (by rw [hguard ps]; exact hps)]
      exact ⟨any_hitFlags ps (fun recs => scenarioContains answer recs), rfl⟩
  refine ⟨(hmain perScenario).1, (hmain perScenario).2, ?_⟩
  intro r
  rw [(hmain [[r]]).1]
  simp [scenarioContains]

/-- C2 witness: for the sample "胸痛" with answer "心电图" and a `(3,3)`-style
response, the middle scenario hits and the hit flags mark exactly it. -/
theorem exactMatchJudge_spec_witness :
    (exactMatchJudge [["胸部X光"], ["心电图"], ["心肌酶谱"]] "心电图").hit = true
    ∧ (exactMatchJudge [["胸部X光"], ["心电图"], ["心肌酶谱"]] "心电图").per_scenario_hits
        = [0, 1, 0] := by
  have h := exactMatchJudge_spec [["胸部X光"], ["心电图"], ["心肌酶谱"]] "心电图"
    (by decide)
  refine ⟨?_, ?_⟩
  · rw [h.1]; decide
  · rw [h.2.1]; decide

/-- C3: with no user combination the planner returns exactly the default set
{(1,1), (3,3), (1,3), (3,1)} with labels `combination_a`, `combination_b`, …,
the historical baseline pair first; a user combination extends the planned
pair set by exactly itself, the planned pairs stay duplicate-free, and a new
user combination is appended labelled "variant". -/
theorem plan_default_and_variant :
    plan none = [⟨1, 1, "combination_a"⟩, ⟨3, 3, "combination_b"⟩,
                 ⟨1, 3, "combination_c"⟩, ⟨3, 1, "combination_d"⟩]
    ∧ (plan none).map combinationPair = [(1, 1), (3, 3), (1, 3), (3, 1)]
    ∧ (∀ u : ℕ × ℕ, ∀ v, v ∈ (plan (some u)).map combinationPair
        ↔ (v ∈ (plan none).map combinationPair ∨ v = u))
    ∧ (∀ u : ℕ × ℕ, ((plan (some u)).map combinationPair).Nodup)
    ∧ (∀ u : ℕ × ℕ, u ∉ (plan none).map combinationPair →
        plan (some u) = plan none ++ [⟨u.1, u.2, "variant"⟩]) := by
  have hdef : (defaultCombinations.map combinationPair)
      = [(1, 1), (3, 3), (1, 3), (3, 1)] := rfl
  have hplan : ∀ u : ℕ × ℕ, plan (some u)
      = if u ∈ defaultCombinations.map combinationPair then defaultCombinations
        else defaultCombinations ++ [⟨u.1, u.2, "variant"⟩] := fun u => rfl
  have hone : ∀ u : ℕ × ℕ,
      ([(⟨u.1, u.2, "variant"⟩ : Combination)]).map combinationPair = [u] :=
    fun u => rfl
  refine ⟨rfl, rfl, ?_, ?_, ?_⟩
  · intro u v
    rw [hplan u]
    by_cases hu : u ∈ defaultCombinations.map combinationPair
    · rw [if_pos hu]
      constructor
      · exact fun hv => Or.inl hv
      · rintro (hv | rfl)
        · exact hv
        · exact hu
    · rw [if_neg hu, List.map_append, hone u, List.mem_append,
        List.mem_singleton]
      exact Iff.rfl
  · intro u
    rw [hplan u]
    by_cases hu : u ∈ defaultCombinations.map combinationPair
    · rw [if_pos hu, hdef]
      decide
    · rw [if_neg hu, List.map_append, hone u, hdef]
      rw [List.nodup_append]
      refine ⟨by decide, List.nodup_singleton u, ?_⟩
      intro a ha hb
      rw [hdef] at hu
      simp only [List.mem_singleton] at hb
      subst hb
      exact hu ha
  · intro u hu
    have hu2 : u ∉ defaultCombinations.map combinationPair := hu
    rw [hplan u, if_neg hu2]
    rfl

/-- C3 witness: the user combination (5, 2) is new, so it is appended as a
"variant" after the four defaults. -/
theorem plan_default_and_variant_witness :
    plan (some (5, 2))
      = [⟨1, 1, "combination_a"⟩, ⟨3, 3, "combination_b"⟩,
         ⟨1, 3, "combination_c"⟩, ⟨3, 1, "combination_d"⟩,
         ⟨5, 2, "variant"⟩] := by
  have h := plan_default_and_variant.2.2.2.2 (5, 2) (by decide)
  rw [h, plan_default_and_variant.1]
  rfl

/-! ## Task progress (claim C5) -/

/-- A task step never shrinks the completed count and fixes the service
total. -/
lemma taskStep_le (s t : TaskState) (h : TaskStep s t) :
    s.completed_services ≤ t.completed_services ∧ s.total_services = t.total_services := by
  cases h <;> simp

/-- Along any reachable run, the completed count is monotone and the total is
fixed. -/
lemma taskSteps_le (s t : TaskState) (h : Relation.ReflTransGen TaskStep s t) :
    s.completed_services ≤ t.completed_services ∧ s.total_services = t.total_services := by
  induction h with
  | refl => exact ⟨le_rfl, rfl⟩
  | tail _ hstep ih =>
      have h2 := taskStep_le _ _ hstep
      exact ⟨ih.1.trans h2.1, ih.2.trans h2.2⟩

/-- Invariants of runs started at a pending task: the completed count never
exceeds the total, and a Success state has all services completed. -/
lemma taskSteps_invariant (s t : TaskState) (hs : s.status = .pending)
    (hc : s.completed_services = 0)
    (h : Relation.ReflTransGen TaskStep s t) :
    t.completed_services ≤ t.total_services
    ∧ (t.status = .success → t.completed_services = t.total_services) := by
  induction h with
  | refl =>
      refine ⟨by omega, fun habs => ?_⟩
      rw [hs] at habs
      exact absurd habs (by decide)
  | tail hpre hstep ih =>
      rename_i mid fin
      cases hstep with
      | start hp =>
          exact ⟨ih.1, fun habs => by simp at habs⟩
      | serviceDone hp hlt =>
          refine ⟨?_, fun habs => by simp at habs⟩
          show mid.completed_services + 1 ≤ mid.total_services
          omega
      | finishSuccess hp heq =>
          refine ⟨?_, fun _ => heq⟩
          show mid.completed_services ≤ mid.total_services
          omega
      | finishFailure hp =>
          exact ⟨ih.1, fun habs => by simp at habs⟩

/-- C5: starting from a freshly created task (pending, nothing completed, at
least one target service), the `progress_percentage` values along any run are
monotonically non-decreasing, and when the task reaches Success the
percentage is exactly 100. -/
theorem taskProgress_monotone_and_success (init s : TaskState)
    (hstatus : init.status = .pending) (hzero : init.completed_services = 0)
    (hpos : 0 < init.total_services)
    (hreach : Relation.ReflTransGen TaskStep init s) :
    (∀ t, Relation.ReflTransGen TaskStep s t →
        progressPercentage s ≤ progressPercentage t)
    ∧ (s.status = .success → progressPercentage s = 100) := by
  constructor
  · intro t ht
    have h := taskSteps_le s t ht
    unfold progressPercentage
    rw [← h.2]
    exact Nat.div_le_div_right (Nat.mul_le_mul_right _ h.1)
  · intro hsucc
    have hinv := (taskSteps_invariant init s hstatus hzero hreach).2 hsucc
    have htot := (taskSteps_le init s hreach).2
    have hpos2 : 0 < s.total_services := htot ▸ hpos
    unfold progressPercentage
    rw [hinv]
    exact Nat.mul_div_cancel_left 100 hpos2

/-- C5 witness: a concrete two-service run — start, two services completing,
then Success — observes percentages 0 ≤ 50 ≤ 100 and ends at 100. -/
theorem taskProgress_monotone_and_success_witness :
    progressPercentage ⟨2, 2, .success⟩ = 100 := by
  have h1 : TaskStep ⟨2, 0, .pending⟩ ⟨2, 0, .started⟩ :=
    TaskStep.start ⟨2, 0, .pending⟩ rfl
  have h2 : TaskStep ⟨2, 0, .started⟩ ⟨2, 1, .progress⟩ :=
    TaskStep.serviceDone ⟨2, 0, .started⟩ (Or.inl rfl) (by decide)
  have h3 : TaskStep ⟨2, 1, .progress⟩ ⟨2, 2, .progress⟩ :=
    TaskStep.serviceDone ⟨2, 1, .progress⟩ (Or.inr rfl) (by decide)
  have h4 : TaskStep ⟨2, 2, .progress⟩ ⟨2, 2, .success⟩ :=
    TaskStep.finishSuccess ⟨2, 2, .progress⟩ (Or.inr rfl) rfl
  have hreach : Relation.ReflTransGen TaskStep ⟨2, 0, .pending⟩ ⟨2, 2, .success⟩ :=
    Relation.ReflTransGen.tail
      (Relation.ReflTransGen.tail
        (Relation.ReflTransGen.tail (Relation.ReflTransGen.single h1) h2) h3) h4
  exact (taskProgress_monotone_and_success ⟨2, 0, .pending⟩ ⟨2, 2, .success⟩
    rfl rfl (by decide) hreach).2 rfl

/-! ## Failure isolation across services (claim C6) -/

/-- C6: in a multi-service run, every submitted service appears in the
aggregate; a service whose evaluator throws is converted into a failed
per-service result carrying the error, and every service whose evaluator
returns normally reaches the "success" status with its result attached —
regardless of what the other services' evaluators did. -/
theorem runAllServices_isolates_failures
    (evals : List (String × Except String SingleEvaluationData))
    (name failing : String) (r : SingleEvaluationData) (e : String)
    (hok : (name, Except.ok r) ∈ evals)
    (herr : (failing, Except.error e) ∈ evals) :
    (runAllServices evals).length = evals.length
    ∧ (name, (⟨"success", some r, none⟩ : EndpointEvalResult)) ∈ runAllServices evals
    ∧ (failing, (⟨"failure", none, some e⟩ : EndpointEvalResult)) ∈ runAllServices evals := by
  exact ⟨List.length_map evals _,
    List.mem_map_of_mem (fun p => (p.1, runServiceGuarded p.2)) hok,
    List.mem_map_of_mem (fun p => (p.1, runServiceGuarded p.2)) herr⟩

/-- A concrete judged sample used by the closed witnesses. -/
def demoDetail : EvaluationDetail :=
  ⟨"胸痛", "心电图", [["心电图"]], [1], true, 120⟩

/-- A concrete combination result used by the closed witnesses. -/
def demoCombinationResult : CombinationResult :=
  ⟨1, 1, 1, [demoDetail]⟩

/-- A concrete per-service payload used by the closed witnesses. -/
def demoSingleData : SingleEvaluationData :=
  ⟨1, demoCombinationResult, demoCombinationResult, none, 120, 1⟩

/-- C6 witness: with the adapter of service "recommend" throwing on every
call and "recommend-simple" evaluating normally, the aggregate still lists
both, with "recommend-simple" at status "success" and "recommend" converted
into a failed result. -/
theorem runAllServices_isolates_failures_witness :
    ("recommend-simple", (⟨"success", some demoSingleData, none⟩ : EndpointEvalResult))
        ∈ runAllServices
          [("recommend", Except.error "connection refused"),
           ("recommend-simple", Except.ok demoSingleData)]
    ∧ ("recommend", (⟨"failure", none, some "connection refused"⟩ : EndpointEvalResult))
        ∈ runAllServices
          [("recommend", Except.error "connection refused"),
           ("recommend-simple", Except.ok demoSingleData)] :=
  ⟨(runAllServices_isolates_failures
      [("recommend", Except.error "connection refused"),
       ("recommend-simple", Except.ok demoSingleData)]
      "recommend-simple" "recommend" demoSingleData "connection refused"
      (by simp) (by simp)).2.1,
   (runAllServices_isolates_failures
      [("recommend", Except.error "connection refused"),
       ("recommend-simple", Except.ok demoSingleData)]
      "recommend-simple" "recommend" demoSingleData "connection refused"
      (by simp) (by simp)).2.2⟩

/-! ## Judge behaviour on empty inputs (claim C4) and on judge failure
(claim C7) -/

/-- C4, evaluating the code at the failing input: with an empty
recommendation list (and a non-empty standard list) under the model-assisted
policy, `judge_by_llm` still consults the external judge chain and returns
its verdict unchanged — here an oracle answering "1"/"1", so the returned
verdicts are not the "0"/"0" that the claim (and the design document's own
empty-input note) prescribes, and the judge call is not skipped. -/
theorem judge_by_llm_empty_still_calls_judge :
    judge_by_llm (fun _ _ => Except.ok ⟨"1", "1"⟩)
        ⟨[], ["CT胸部"], true⟩
      = Except.ok ⟨⟨"1", "1"⟩⟩
    ∧ judge_by_str ⟨[], ["CT胸部"], true⟩ = ⟨⟨"0", "0"⟩⟩ :=
  ⟨rfl, rfl⟩

/-- C7 counterexample: a failing external judge makes `judge_recommendations`
return the judge's error — not the exact-match fallback verdict the claim
describes (`judge_by_str` on the same request is a plain response). -/
theorem judge_recommendations_no_fallback_counterexample :
    judge_recommendations (fun _ _ => Except.error "judge unavailable")
        ⟨[RecItem.rstr "心电图"], ["心电图"], true⟩
      = Except.error "judge unavailable"
    ∧ ∀ resp : JudgeResponse,
        judge_recommendations (fun _ _ => Except.error "judge unavailable")
            ⟨[RecItem.rstr "心电图"], ["心电图"], true⟩
          ≠ Except.ok resp :=
  ⟨rfl, fun _ h => Except.noConfusion h⟩

/-- C7 amended: when the external judge fails under the model-assisted
policy, `judge_recommendations` propagates that failure as an error for the
request instead of falling back to the exact-match policy. -/
theorem judge_recommendations_propagates_failure
    (req : JudgeRequest) (e : String) (h : req.model_judge = true) :
    judge_recommendations (fun _ _ => Except.error e) req = Except.error e := by
  unfold judge_recommendations judge_by_llm
  rw [if_pos h]
  rfl

/-- C7 witness: the propagation at a concrete request and error. -/
theorem judge_recommendations_propagates_failure_witness :
    judge_recommendations (fun _ _ => Except.error "timeout")
        ⟨[RecItem.rstr "CT"], ["CT"], true⟩
      = Except.error "timeout" :=
  judge_recommendations_propagates_failure
    ⟨[RecItem.rstr "CT"], ["CT"], true⟩ "timeout" rfl

end Acrac
